import Mathlib

/-!
Verification of the SmartFit estimation engine (src/app.py).

The engine consists of closed-form arithmetic formulas and static lookup
tables.  Numeric quantities are modelled as rationals; the Python builtin
round(x, 2) is modelled by rounding at two decimal places (the claims below
never evaluate it at a tie, so the tie-breaking convention is immaterial).
Dictionary lookups via dict.get with a default are modelled by Option.getD;
plain dict indexing, which can raise KeyError, is modelled by Option.
-/

namespace SmartFit

/-- Rounding to two decimal places, modelling the round(x, 2) call in
calculate_calories_burned. -/
def round2 (q : ℚ) : ℚ := ((q * 100 + 1 / 2).floor : ℚ) / 100

/-- The calculate_bmi helper: weight divided by height squared. -/
def calculate_bmi (weight_kg height_m : ℚ) : ℚ := weight_kg / height_m ^ 2

/-- The met_values dictionary inside calculate_calories_burned. -/
def met_values (intensity : String) : Option ℚ :=
  if intensity = "Low" then some 3.5
  else if intensity = "Medium" then some 6.0
  else if intensity = "High" then some 8.5
  else if intensity = "Very High" then some 10.5
  else none

/-- The calculate_calories_burned helper: MET lookup with default 6.0, the
MET formula, rounded to two decimals.  The age parameter is declared but
never used, exactly as in the source. -/
def calculate_calories_burned (duration : ℚ) (intensity : String) (weight : ℚ)
    (age : ℚ) : ℚ :=
  round2 ((met_values intensity).getD 6.0 * 3.5 * weight / 200 * duration)

/-- The workout_factors dictionary in the Predictions page button handler. -/
def workout_factors (workout_type : String) : Option ℚ :=
  if workout_type = "Cardio" then some 1.2
  else if workout_type = "Strength" then some 0.9
  else if workout_type = "HIIT" then some 1.5
  else if workout_type = "Yoga" then some 0.6
  else if workout_type = "Sports" then some 1.3
  else none

/-- The Predictions page calorie button handler: the base estimate from
calculate_calories_burned, multiplied by the gender factor and the
workout-type factor (default 1.0). -/
def predictions_calories_result (duration : ℚ) (intensity : String)
    (weight age : ℚ) (gender workout_type : String) : ℚ :=
  let calories := calculate_calories_burned duration intensity weight age
  let gender_factor : ℚ := if gender = "Male" then 1.1 else 1.0
  calories * gender_factor * (workout_factors workout_type).getD 1.0

/-- The MET table exactly as the specification words it (spec section 4.1),
including the documented Medium default for an unknown intensity. -/
def spec_MET (intensity : String) : ℚ :=
  if intensity = "Low" then 3.5
  else if intensity = "Medium" then 6.0
  else if intensity = "High" then 8.5
  else if intensity = "Very High" then 10.5
  else 6.0

/-- The rounded calorie base exactly as the specification words it. -/
def spec_calorie_base (duration : ℚ) (intensity : String) (weight : ℚ) : ℚ :=
  round2 (spec_MET intensity * 3.5 * weight / 200 * duration)

/-- The gender multiplier exactly as the specification words it. -/
def spec_gender_factor (gender : String) : ℚ :=
  if gender = "Male" then 1.1 else 1.0

/-- The workout-type multiplier exactly as the specification words it,
including the documented 1.0 default for an unknown type. -/
def spec_type_factor (workout_type : String) : ℚ :=
  if workout_type = "Cardio" then 1.2
  else if workout_type = "Strength" then 0.9
  else if workout_type = "HIIT" then 1.5
  else if workout_type = "Yoga" then 0.6
  else if workout_type = "Sports" then 1.3
  else 1.0

/-- The final calorie estimate exactly as the specification words it: the
rounded base times the gender factor times the workout-type factor. -/
def spec_final_calories (duration : ℚ) (intensity : String) (weight : ℚ)
    (gender workout_type : String) : ℚ :=
  spec_calorie_base duration intensity weight * spec_gender_factor gender *
    spec_type_factor workout_type

theorem rat_floor_eq_int_floor (q : ℚ) : q.floor = ⌊q⌋ :=
  (Rat.floor_def' q).trans Rat.floor_def.symm

theorem met_values_getD (intensity : String) :
    (met_values intensity).getD 6.0 = spec_MET intensity := by
  unfold met_values spec_MET
  split_ifs <;> rfl

theorem workout_factors_getD (workout_type : String) :
    (workout_factors workout_type).getD 1.0 = spec_type_factor workout_type := by
  unfold workout_factors spec_type_factor
  split_ifs <;> rfl

/-- C1: for every duration, intensity string, weight and age, the calorie
estimate equals the rounded MET-formula base with MET from the four-entry
table (default 6.0 on an unknown intensity), and the handler result is that
rounded base times the gender factor and the workout-type factor (default
1.0 on an unknown type); no error is raised (both functions are total). -/
theorem calories_match_spec (duration : ℚ) (intensity : String) (weight age : ℚ)
    (gender workout_type : String) :
    calculate_calories_burned duration intensity weight age =
      spec_calorie_base duration intensity weight ∧
    predictions_calories_result duration intensity weight age gender workout_type =
      spec_final_calories duration intensity weight gender workout_type := by
  have hbase : calculate_calories_burned duration intensity weight age =
      spec_calorie_base duration intensity weight := by
    unfold calculate_calories_burned spec_calorie_base
    rw [met_values_getD]
  refine ⟨hbase, ?_⟩
  unfold predictions_calories_result spec_final_calories spec_gender_factor
  rw [workout_factors_getD, hbase]

/-- C10: the calorie estimate does not depend on its age argument. -/
theorem calories_age_independent (duration : ℚ) (intensity : String) (weight : ℚ)
    (a1 a2 : ℚ) :
    calculate_calories_burned duration intensity weight a1 =
      calculate_calories_burned duration intensity weight a2 := rfl

/-- C5 fails on the code: at duration 45, intensity Medium, weight 70, age 30
the rounded base is 330.75, not 66.15, and with the Male and Cardio factors
the handler returns 436.59, not 87.32. -/
theorem spec_example_values_wrong :
    calculate_calories_burned 45 "Medium" 70 30 = 330.75 ∧
    (330.75 : ℚ) ≠ 66.15 ∧
    predictions_calories_result 45 "Medium" 70 30 "Male" "Cardio" = 436.59 ∧
    (436.59 : ℚ) ≠ 87.32 := by
  have hm : met_values ("Medium") = some 6.0 := rfl
  have hw : workout_factors ("Cardio") = some 1.2 := rfl
  have hbase : calculate_calories_burned 45 "Medium" 70 30 = 330.75 := by
    unfold calculate_calories_burned round2
    rw [rat_floor_eq_int_floor, hm]
    rw [show ((some (6.0 : ℚ)).getD 6.0 * 3.5 * 70 / 200 * 45 * 100 + 1 / 2 : ℚ) =
      ((66151 : ℤ) : ℚ) / ((2 : ℕ) : ℚ) by norm_num [Option.getD]]
    rw [Rat.floor_intCast_div_natCast]
    norm_num
  refine ⟨hbase, by norm_num, ?_, by norm_num⟩
  simp only [predictions_calories_result, hbase, hw]
  norm_num

/-- C5 amended: the evaluation at duration 45, intensity Medium, weight 70,
age 30 yields the rounded base 330.75, and applying the 1.1 Male factor and
the 1.2 Cardio factor yields 436.59. -/
theorem spec_example_values_actual :
    calculate_calories_burned 45 "Medium" 70 30 = 330.75 ∧
    predictions_calories_result 45 "Medium" 70 30 "Male" "Cardio" = 436.59 := by
  have hm : met_values ("Medium") = some 6.0 := rfl
  have hw : workout_factors ("Cardio") = some 1.2 := rfl
  have hbase : calculate_calories_burned 45 "Medium" 70 30 = 330.75 := by
    unfold calculate_calories_burned round2
    rw [rat_floor_eq_int_floor, hm]
    rw [show ((some (6.0 : ℚ)).getD 6.0 * 3.5 * 70 / 200 * 45 * 100 + 1 / 2 : ℚ) =
      ((66151 : ℤ) : ℚ) / ((2 : ℕ) : ℚ) by norm_num [Option.getD]]
    rw [Rat.floor_intCast_div_natCast]
    norm_num
  refine ⟨hbase, ?_⟩
  simp only [predictions_calories_result, hbase, hw]
  norm_num

/-- C8: calculate_bmi is exactly weight over height squared, strictly
increasing in weight at fixed positive height, and strictly decreasing in
height at fixed positive weight. -/
theorem bmi_formula_strict_monotone (w h w2 h2 : ℚ) (hw : 0 < w) (hh : 0 < h) :
    calculate_bmi w h = w / h ^ 2 ∧
    (w < w2 → calculate_bmi w h < calculate_bmi w2 h) ∧
    (h < h2 → calculate_bmi w h2 < calculate_bmi w h) := by
  refine ⟨rfl, ?_, ?_⟩
  · intro hlt
    unfold calculate_bmi
    have hp : (0 : ℚ) < h ^ 2 := by positivity
    exact div_lt_div_of_pos_right hlt hp
  · intro hlt
    unfold calculate_bmi
    have hp : (0 : ℚ) < h ^ 2 := by positivity
    have hsq : h ^ 2 < h2 ^ 2 := by nlinarith
    exact div_lt_div_of_pos_left hw hp hsq

/-- Witness for the BMI theorem at weight 70 and 80, height 2 and 3. -/
theorem bmi_formula_strict_monotone_witness :
    calculate_bmi 70 2 = 70 / 2 ^ 2 ∧
    calculate_bmi 70 2 < calculate_bmi 80 2 ∧
    calculate_bmi 70 3 < calculate_bmi 70 2 := by
  obtain ⟨h1, h2, h3⟩ := bmi_formula_strict_monotone 70 2 80 3 (by norm_num) (by norm_num)
  exact ⟨h1, h2 (by norm_num), h3 (by norm_num)⟩

/-- The Fitness Profiles page cluster assignment: the if/elif chain over
bpm, experience, duration, frequency, intensity and bmi. -/
def fitness_profile_cluster (bmi : ℚ) (user_bpm : ℤ) (user_experience : String)
    (user_duration : ℤ) (user_frequency : ℤ) (user_intensity : String) : ℕ :=
  if user_bpm > 175 ∧ user_experience = "Elite" ∧ user_duration > 60 then 0
  else if (user_experience = "Advanced" ∨ user_experience = "Elite") ∧
      (user_intensity = "High" ∨ user_intensity = "Very High") then 1
  else if user_experience = "Intermediate" ∧ user_frequency ≥ 3 then 2
  else if user_experience = "Beginner" ∨ user_frequency ≤ 2 then 3
  else if bmi > 30 then 4 else 2

/-- C2: the profile-mode classifier is a first-match-wins rule list: rule 1
always yields 0 when its condition holds (even if rule 2 also matches), each
later rule fires only when all earlier conditions fail, and the result is
always one of 0, 1, 2, 3, 4. -/
theorem fitness_profile_cluster_rules (bmi : ℚ) (bpm : ℤ) (experience : String)
    (duration frequency : ℤ) (intensity : String) :
    (bpm > 175 ∧ experience = "Elite" ∧ duration > 60 →
      fitness_profile_cluster bmi bpm experience duration frequency intensity = 0) ∧
    (¬(bpm > 175 ∧ experience = "Elite" ∧ duration > 60) →
      (experience = "Advanced" ∨ experience = "Elite") ∧
        (intensity = "High" ∨ intensity = "Very High") →
      fitness_profile_cluster bmi bpm experience duration frequency intensity = 1) ∧
    (¬(bpm > 175 ∧ experience = "Elite" ∧ duration > 60) →
      ¬((experience = "Advanced" ∨ experience = "Elite") ∧
        (intensity = "High" ∨ intensity = "Very High")) →
      experience = "Intermediate" ∧ frequency ≥ 3 →
      fitness_profile_cluster bmi bpm experience duration frequency intensity = 2) ∧
    (¬(bpm > 175 ∧ experience = "Elite" ∧ duration > 60) →
      ¬((experience = "Advanced" ∨ experience = "Elite") ∧
        (intensity = "High" ∨ intensity = "Very High")) →
      ¬(experience = "Intermediate" ∧ frequency ≥ 3) →
      (experience = "Beginner" ∨ frequency ≤ 2) →
      fitness_profile_cluster bmi bpm experience duration frequency intensity = 3) ∧
    (¬(bpm > 175 ∧ experience = "Elite" ∧ duration > 60) →
      ¬((experience = "Advanced" ∨ experience = "Elite") ∧
        (intensity = "High" ∨ intensity = "Very High")) →
      ¬(experience = "Intermediate" ∧ frequency ≥ 3) →
      ¬(experience = "Beginner" ∨ frequency ≤ 2) →
      fitness_profile_cluster bmi bpm experience duration frequency intensity =
        if bmi > 30 then 4 else 2) ∧
    fitness_profile_cluster bmi bpm experience duration frequency intensity ≤ 4 := by
  unfold fitness_profile_cluster
  refine ⟨?_, ?_, ?_, ?_, ?_, ?_⟩
  · intro h1
    rw [if_pos h1]
  · intro h1 h2
    rw [if_neg h1, if_pos h2]
  · intro h1 h2 h3
    rw [if_neg h1, if_neg h2, if_pos h3]
  · intro h1 h2 h3 h4
    rw [if_neg h1, if_neg h2, if_neg h3, if_pos h4]
  · intro h1 h2 h3 h4
    rw [if_neg h1, if_neg h2, if_neg h3, if_neg h4]
  · split_ifs <;> norm_num

/-- Witness for the classifier theorem: an Elite user with bpm 180, duration
90, frequency 5 and High intensity matches both rule 1 and rule 2, and is
assigned archetype 0. -/
theorem fitness_profile_cluster_rules_witness :
    ((("Elite" : String) = "Advanced" ∨ ("Elite" : String) = "Elite") ∧
      (("High" : String) = "High" ∨ ("High" : String) = "Very High")) ∧
    fitness_profile_cluster 25 180 "Elite" 90 5 "High" = 0 :=
  ⟨⟨Or.inr rfl, Or.inl rfl⟩,
    (fitness_profile_cluster_rules 25 180 "Elite" 90 5 "High").1
      ⟨by norm_num, rfl, by norm_num⟩⟩

/-- The weekly_deficit dictionary in the Workout Impact handler; the source
indexes it with plain brackets, which raises KeyError on any other goal, so
the lookup is modelled by Option. -/
def weekly_deficit (diet_goal : String) : Option ℚ :=
  if diet_goal = "Weight Loss" then some (-500)
  else if diet_goal = "Maintenance" then some 0
  else if diet_goal = "Muscle Gain" then some 300
  else none

/-- The Workout Impact projection handler: weekly burn from the calorie
estimator at fixed Medium intensity and age 30, net weekly balance, weight
change per week via the 7700 kcal-per-kg constant, projected weight. -/
def workout_impact_projection (current_weight weekly_workouts : ℚ)
    (workout_duration_avg : ℚ) (diet_goal : String) (weeks : ℚ) : Option ℚ :=
  (weekly_deficit diet_goal).map fun d =>
    let weekly_cal_burn :=
      calculate_calories_burned workout_duration_avg ("Medium") current_weight 30 *
        weekly_workouts
    let net_weekly := weekly_cal_burn + d * 7
    let weight_change_per_week := net_weekly / 7700
    current_weight + weight_change_per_week * weeks

/-- The diet delta table as the specification words it. -/
def spec_diet_delta (goal : String) : ℚ :=
  if goal = "Weight Loss" then -500
  else if goal = "Muscle Gain" then 300
  else 0

/-- C3: for the three supported diet goals, the projection equals the spec
formula: current weight plus weeks times (weekly burn at Medium intensity
and reference age 30 plus seven times the diet delta) over 7700. -/
theorem projection_formula (current_weight weekly_workouts duration weeks : ℚ)
    (goal : String)
    (hg : goal = "Weight Loss" ∨ goal = "Maintenance" ∨ goal = "Muscle Gain") :
    workout_impact_projection current_weight weekly_workouts duration goal weeks =
      some (current_weight +
        ((calculate_calories_burned duration ("Medium") current_weight 30 *
            weekly_workouts + spec_diet_delta goal * 7) / 7700) * weeks) := by
  rcases hg with rfl | rfl | rfl
  · have hd : weekly_deficit ("Weight Loss") = some (-500 : ℚ) := rfl
    have hs : spec_diet_delta ("Weight Loss") = -500 := rfl
    rw [workout_impact_projection, hd, hs]
    rfl
  · have hd : weekly_deficit ("Maintenance") = some (0 : ℚ) := rfl
    have hs : spec_diet_delta ("Maintenance") = 0 := rfl
    rw [workout_impact_projection, hd, hs]
    rfl
  · have hd : weekly_deficit ("Muscle Gain") = some (300 : ℚ) := rfl
    have hs : spec_diet_delta ("Muscle Gain") = 300 := rfl
    rw [workout_impact_projection, hd, hs]
    rfl

/-- Witness for the projection theorem at the spec section 8 example:
weight 75, four workouts per week, 45 minutes, Weight Loss, 12 weeks. -/
theorem projection_formula_witness :
    workout_impact_projection 75 4 45 ("Weight Loss") 12 =
      some (75 + ((calculate_calories_burned 45 ("Medium") 75 30 * 4 +
        spec_diet_delta ("Weight Loss") * 7) / 7700) * 12) :=
  projection_formula 75 4 45 12 ("Weight Loss") (Or.inl rfl)

/-- A diet plan record, as stored in the diets dictionary. -/
structure DietPlan where
  calories : String
  protein : String
  carbs : String
  fats : String
  meals : List String
deriving DecidableEq

/-- The Weight Loss entry of the diets dictionary. -/
def weight_loss_plan : DietPlan :=
  ⟨"1500-1800 kcal/day", "1.8-2.2g/kg bodyweight", "100-150g/day", "40-60g/day",
    ["Breakfast: Oatmeal with berries", "Lunch: Grilled chicken salad",
      "Dinner: Salmon with vegetables", "Snacks: Greek yogurt, almonds"]⟩

/-- The Muscle Gain entry of the diets dictionary. -/
def muscle_gain_plan : DietPlan :=
  ⟨"2500-3200 kcal/day", "2.0-2.5g/kg bodyweight", "300-450g/day", "70-100g/day",
    ["Breakfast: Eggs, whole grain toast, avocado", "Lunch: Rice, chicken, vegetables",
      "Dinner: Steak, sweet potato, broccoli", "Snacks: Protein shake, nuts, banana"]⟩

/-- The Maintenance entry of the diets dictionary. -/
def maintenance_plan : DietPlan :=
  ⟨"2000-2400 kcal/day", "1.5-1.8g/kg bodyweight", "200-280g/day", "55-75g/day",
    ["Breakfast: Smoothie bowl with granola", "Lunch: Turkey wrap with vegetables",
      "Dinner: Pasta with lean meat sauce", "Snacks: Fruit, trail mix"]⟩

/-- The Endurance entry of the diets dictionary. -/
def endurance_plan : DietPlan :=
  ⟨"2800-3500 kcal/day", "1.4-1.8g/kg bodyweight", "400-600g/day", "60-90g/day",
    ["Breakfast: Pancakes with maple syrup", "Lunch: Quinoa bowl with chicken",
      "Dinner: Pasta with vegetables", "Snacks: Energy bars, dried fruit, sports drinks"]⟩

/-- The get_diet_plan helper: a goal-keyed dictionary lookup with the
Maintenance plan as default; the cluster_id parameter is never read. -/
def get_diet_plan (cluster_id : ℤ) (goal : String) : DietPlan :=
  if goal = "Weight Loss" then weight_loss_plan
  else if goal = "Muscle Gain" then muscle_gain_plan
  else if goal = "Maintenance" then maintenance_plan
  else if goal = "Endurance" then endurance_plan
  else maintenance_plan

/-- C4: the diet plan lookup depends only on the goal: any two cluster IDs
give the identical plan, and any goal outside the four table keys returns
the Maintenance plan. -/
theorem diet_plan_ignores_cluster (goal : String) (c1 c2 : ℤ) :
    get_diet_plan c1 goal = get_diet_plan c2 goal ∧
    (goal ≠ "Weight Loss" → goal ≠ "Muscle Gain" → goal ≠ "Maintenance" →
      goal ≠ "Endurance" → get_diet_plan c1 goal = maintenance_plan) := by
  refine ⟨rfl, ?_⟩
  intro h1 h2 h3 h4
  unfold get_diet_plan
  rw [if_neg h1, if_neg h2, if_neg h3, if_neg h4]

/-- Witness for the diet plan theorem at the unknown goal Keto and the
cluster IDs 0 and 99. -/
theorem diet_plan_ignores_cluster_witness :
    get_diet_plan 0 ("Keto") = get_diet_plan 99 ("Keto") ∧
    get_diet_plan 0 ("Keto") = maintenance_plan :=
  ⟨(diet_plan_ignores_cluster ("Keto") 0 99).1,
    (diet_plan_ignores_cluster ("Keto") 0 99).2 (by decide) (by decide) (by decide)
      (by decide)⟩

/-- Python range(start, stop, step) for a positive step. -/
def pythonRange (start stop step : ℕ) : List ℕ :=
  (List.range ((stop - start + step - 1) / step)).map (fun i => start + i * step)

/-- The Workout Impact progress-chart timeline:
list(range(0, weeks + 1, max(1, weeks // 10))). -/
def timeline (weeks : ℕ) : List ℕ := pythonRange 0 (weeks + 1) (max 1 (weeks / 10))

/-- C6 fails on the code: at 25 weeks the step is 2 and the series ends at
week 24, not the final week 25; and at 19 weeks the step is 1 and the series
holds 20 points, 19 of them beyond week 0, not at most 10. -/
theorem timeline_claim_false :
    (timeline 25).getLast? = some 24 ∧ (24 : ℕ) ≠ 25 ∧
    (timeline 19).length = 20 := by
  refine ⟨by decide, by norm_num, by decide⟩

/-- C6 amended: with step s = max(1, weeks // 10), the series is exactly the
multiples of s from 0 to s * (weeks / s), so its last entry is the largest
multiple of s not exceeding weeks; it equals the final week only when s
divides weeks, and the series holds weeks / s + 1 points. -/
theorem timeline_structure (weeks : ℕ) :
    timeline weeks =
      (List.range (weeks / max 1 (weeks / 10) + 1)).map
        (fun i => i * max 1 (weeks / 10)) ∧
    (timeline weeks).getLast? =
      some (weeks / max 1 (weeks / 10) * max 1 (weeks / 10)) ∧
    (timeline weeks).length = weeks / max 1 (weeks / 10) + 1 := by
  have hs : 0 < max 1 (weeks / 10) := Nat.lt_of_lt_of_le Nat.zero_lt_one (Nat.le_max_left _ _)
  have hcount : (weeks + 1 - 0 + max 1 (weeks / 10) - 1) / max 1 (weeks / 10) =
      weeks / max 1 (weeks / 10) + 1 := by
    have he : weeks + 1 - 0 + max 1 (weeks / 10) - 1 = weeks + max 1 (weeks / 10) := by
      omega
    rw [he, Nat.add_div_right _ hs]
  have hmain : timeline weeks =
      (List.range (weeks / max 1 (weeks / 10) + 1)).map
        (fun i => i * max 1 (weeks / 10)) := by
    unfold timeline pythonRange
    rw [hcount]
    simp only [Nat.zero_add]
  refine ⟨hmain, ?_, ?_⟩
  · rw [hmain, List.range_succ, List.map_append]
    simp
  · rw [hmain]
    simp

/-- A per-cluster workout menu, one ordered list per difficulty key. -/
structure WorkoutMenu where
  high : List String
  medium : List String
  low : List String
deriving DecidableEq

/-- Cluster 0 workout menu. -/
def menu0 : WorkoutMenu :=
  ⟨["HIIT Training (45 min)", "Marathon Running (90 min)", "CrossFit WOD (60 min)",
      "Olympic Lifting (75 min)"],
    ["Tempo Running (60 min)", "Circuit Training (45 min)", "Swimming (60 min)"],
    ["Easy Run (30 min)", "Yoga (45 min)", "Stretching (20 min)"]⟩

/-- Cluster 1 workout menu. -/
def menu1 : WorkoutMenu :=
  ⟨["Heavy Compound Lifts (75 min)", "Powerlifting Session (90 min)",
      "Strongman Training (60 min)"],
    ["Hypertrophy Training (60 min)", "Push/Pull Workout (45 min)",
      "Functional Training (50 min)"],
    ["Light Weight Training (30 min)", "Mobility Work (25 min)", "Core Strength (20 min)"]⟩

/-- Cluster 2 workout menu. -/
def menu2 : WorkoutMenu :=
  ⟨["Interval Training (40 min)", "Full Body Circuit (45 min)", "Spin Class (50 min)"],
    ["Jogging (35 min)", "Bodyweight Exercises (30 min)", "Pilates (40 min)"],
    ["Walking (25 min)", "Gentle Yoga (30 min)", "Stretching (20 min)"]⟩

/-- Cluster 3 workout menu. -/
def menu3 : WorkoutMenu :=
  ⟨["Beginner HIIT (25 min)", "Light Circuit (30 min)", "Brisk Walking Hills (30 min)"],
    ["Beginner Strength (30 min)", "Low-Impact Cardio (25 min)", "Basic Yoga (30 min)"],
    ["Gentle Walking (20 min)", "Chair Exercises (15 min)", "Breathing Exercises (10 min)"]⟩

/-- Cluster 4 workout menu. -/
def menu4 : WorkoutMenu :=
  ⟨["Water Aerobics (30 min)", "Recumbent Bike (25 min)", "Resistance Bands (20 min)"],
    ["Gentle Walking (20 min)", "Chair Yoga (25 min)", "Balance Training (20 min)"],
    ["Stretching (15 min)", "Seated Exercises (15 min)", "Meditation (10 min)"]⟩

/-- The outer workouts dictionary, keyed by cluster ID. -/
def workouts_table (cluster_id : ℤ) : Option WorkoutMenu :=
  if cluster_id = 0 then some menu0
  else if cluster_id = 1 then some menu1
  else if cluster_id = 2 then some menu2
  else if cluster_id = 3 then some menu3
  else if cluster_id = 4 then some menu4
  else none

/-- Lookup of a difficulty key in a workout menu, as the inner dict.get. -/
def WorkoutMenu.find (m : WorkoutMenu) (difficulty : String) : Option (List String) :=
  if difficulty = "High" then some m.high
  else if difficulty = "Medium" then some m.medium
  else if difficulty = "Low" then some m.low
  else none

/-- The get_workout_recommendations helper.  The source returns
workouts.get(cluster_id, workouts[2]).get(difficulty, workouts[cluster_id]['Medium']):
the default argument workouts[cluster_id]['Medium'] is evaluated eagerly, so
an unknown cluster_id raises KeyError (modelled by none) before the outer
.get default could apply. -/
def get_workout_recommendations (cluster_id : ℤ) (difficulty : String) :
    Option (List String) :=
  match workouts_table cluster_id with
  | none => none
  | some inner =>
    let recv := (workouts_table cluster_id).getD menu2
    some ((recv.find difficulty).getD inner.medium)

/-- C9: get_workout_recommendations fails (KeyError) for every cluster ID
outside 0..4 regardless of difficulty, because the eager fallback expression
workouts[cluster_id]['Medium'] is evaluated first; for cluster IDs in 0..4 an
unknown difficulty returns that cluster's Medium list without error. -/
theorem workout_recommendations_keyerror (c : ℤ) (d : String) :
    (¬(0 ≤ c ∧ c ≤ 4) → get_workout_recommendations c d = none) ∧
    (0 ≤ c → c ≤ 4 → d ≠ "High" → d ≠ "Medium" → d ≠ "Low" →
      ∀ m, workouts_table c = some m →
        get_workout_recommendations c d = some m.medium) := by
  constructor
  · intro hc
    have ht : workouts_table c = none := by
      unfold workouts_table
      split_ifs <;> first | rfl | (exfalso; omega)
    unfold get_workout_recommendations
    rw [ht]
  · intro h0 h4 hd1 hd2 hd3 m hm
    unfold get_workout_recommendations
    rw [hm]
    simp only [Option.getD_some]
    unfold WorkoutMenu.find
    rw [if_neg hd1, if_neg hd2, if_neg hd3]
    rfl

/-- Witness for the recommendations theorem: cluster 7 fails even at a known
difficulty, while cluster 1 with the unknown difficulty Extreme returns the
cluster 1 Medium list. -/
theorem workout_recommendations_keyerror_witness :
    get_workout_recommendations 7 ("Medium") = none ∧
    get_workout_recommendations 1 ("Extreme") = some menu1.medium :=
  ⟨(workout_recommendations_keyerror 7 ("Medium")).1 (by omega),
    (workout_recommendations_keyerror 1 ("Extreme")).2 (by omega) (by omega)
      (by decide) (by decide) (by decide) menu1 rfl⟩

/-- The ordered list of day names in the Workout Recommender page. -/
def days : List String :=
  ["Monday", "Tuesday", "Wednesday", "Thursday", "Friday", "Saturday", "Sunday"]

/-- The Workout Recommender weekly schedule loop: the first workout_days day
names get a workout picked by index parity (even index i takes entry
i mod len, odd index i takes entry (i + 1) mod len), the remaining days are
marked as rest days. -/
def build_schedule (workouts : List String) (workout_days : ℕ) :
    List (String × String) :=
  ((days.take workout_days).enum.map fun p =>
    (p.2, if p.1 % 2 = 0 then workouts.getD (p.1 % workouts.length) ""
      else workouts.getD ((p.1 + 1) % workouts.length) "")) ++
  ((days.drop workout_days).map fun d => (d, "Rest Day 😴"))

/-- C7: for every archetype in 0..4, table difficulty and daysPerWeek in
1..7, the schedule assigns day index i < daysPerWeek the workout at list
index (i if i is even, else i + 1) mod len and marks every later day of the
week as rest; and with the 4-entry menu0 High list and 5 days per week the
schedule has exactly 5 workout days and 2 rest days. -/
theorem schedule_rules :
    (∀ c : ℕ, c < 5 → ∀ diff ∈ (["Low", "Medium", "High"] : List String),
      ∀ dpw < 8, 1 ≤ dpw →
        (get_workout_recommendations (Int.ofNat c) diff).isSome = true ∧
        (∀ i < dpw,
          (build_schedule ((get_workout_recommendations (Int.ofNat c) diff).getD []) dpw)[i]? =
            some (days.getD i "",
              ((get_workout_recommendations (Int.ofNat c) diff).getD []).getD
                ((if i % 2 = 0 then i else i + 1) %
                  ((get_workout_recommendations (Int.ofNat c) diff).getD []).length) "")) ∧
        (build_schedule ((get_workout_recommendations (Int.ofNat c) diff).getD []) dpw).drop
            dpw =
          (days.drop dpw).map (fun d => (d, "Rest Day 😴"))) ∧
    menu0.high.length = 4 ∧
    (build_schedule menu0.high 5).countP (fun p => p.2 == "Rest Day 😴") = 2 ∧
    (build_schedule menu0.high 5).countP (fun p => !(p.2 == "Rest Day 😴")) = 5 := by
  refine ⟨by decide, by decide, by decide, by decide⟩

/-- Witness for the schedule theorem at archetype 0, difficulty High, five
days per week: the last two days of the week are rest days. -/
theorem schedule_rules_witness :
    (build_schedule ((get_workout_recommendations (Int.ofNat 0) ("High")).getD []) 5).drop 5 =
      (days.drop 5).map (fun d => (d, "Rest Day 😴")) :=
  (schedule_rules.1 0 (by decide) ("High") (by decide) 5 (by decide) (by decide)).2.2

end SmartFit
